import Mathlib

/-!
Shallow embedding of the License Tracker backend core
(app/backend/services: assignment_service.py, alert_service.py,
report_service.py, license_service.py, over app/backend/models.py).

Conventions of the embedding:
* the SQLAlchemy session/database is a `Store` value holding the four record
  lists in insertion order; `db.add` appends, `db.delete` removes by primary
  key, `query(..).filter(..).first()` is `List.find?`, `.count()` is
  `List.countP`;
* a raised `HTTPException(status_code, detail)` is the `Except.error` branch;
  mutating service methods return the (unchanged) store alongside the error,
  mirroring the fact that no commit happened;
* Python `date`/`datetime` values are day numbers (`Int`); `d2 - d1` is the
  `.days` difference and `today + timedelta(days=n)` is `today + n`;
* Python numbers are exact: `int` is `Int` (counts are `Nat`), arithmetic on
  fractions is `ℚ`, the float literal `0.9` is `9/10`, and `round(x, 2)` is
  round-half-to-even at two decimals over `ℚ` (`round2` below).
-/

namespace LicenseTracker

/-- Round a rational to the nearest integer, halves to the even neighbour
(the rounding Python's builtin `round` uses). -/
def roundHalfEven (q : ℚ) : ℤ :=
  let f : ℤ := ⌊q⌋
  if q - f < 1/2 then f
  else if 1/2 < q - f then f + 1
  else if f % 2 = 0 then f else f + 1

/-- Python `round(x, 2)` over exact rationals. -/
def round2 (q : ℚ) : ℚ := (roundHalfEven (q * 100) : ℚ) / 100

/-- models.DeviceStatus -/
inductive DeviceStatus
  | ACTIVE
  | MAINTENANCE
  | OBSOLETE
  | DECOMMISSIONED
deriving DecidableEq

/-- models.LicenseType -/
inductive LicenseType
  | PER_USER
  | PER_DEVICE
  | ENTERPRISE
deriving DecidableEq

/-- models.Vendor -/
structure Vendor where
  vendor_id : String
  vendor_name : String
  support_email : Option String
deriving DecidableEq

/-- models.License -/
structure License where
  license_key : String
  software_name : String
  vendor_id : String
  valid_from : Int
  valid_to : Int
  license_type : LicenseType
  max_usage : Int
  notes : Option String
deriving DecidableEq

/-- models.Device -/
structure Device where
  device_id : String
  type : String
  ip_address : String
  location : String
  model : Option String
  status : DeviceStatus
deriving DecidableEq

/-- models.Assignment -/
structure Assignment where
  assignment_id : String
  license_key : String
  device_id : String
  assigned_by : String
  assigned_at : Int
deriving DecidableEq

/-- The database state: the four record tables, each in insertion order. -/
structure Store where
  vendors : List Vendor
  licenses : List License
  devices : List Device
  assignments : List Assignment
deriving DecidableEq

/-- fastapi.HTTPException as raised by the services. -/
structure HTTPException where
  status_code : Nat
  detail : String
deriving DecidableEq

/-- db.query(License).filter(License.license_key == license_key).first() -/
def getLicense (s : Store) (license_key : String) : Option License :=
  s.licenses.find? fun l => decide (l.license_key = license_key)

/-- db.query(Device).filter(Device.device_id == device_id).first() -/
def getDevice (s : Store) (device_id : String) : Option Device :=
  s.devices.find? fun d => decide (d.device_id = device_id)

/-- db.query(Assignment).filter(license_key == .., device_id == ..).first() -/
def findAssignmentPair (s : Store) (license_key device_id : String) : Option Assignment :=
  s.assignments.find? fun a => decide (a.license_key = license_key ∧ a.device_id = device_id)

/-- db.query(Assignment).filter(Assignment.license_key == license_key).count() -/
def countAssignments (s : Store) (license_key : String) : Nat :=
  s.assignments.countP fun a => decide (a.license_key = license_key)

/-- db.query(Assignment).filter(Assignment.assignment_id == assignment_id).first() -/
def findAssignment (s : Store) (assignment_id : String) : Option Assignment :=
  s.assignments.find? fun a => decide (a.assignment_id = assignment_id)

/-- Number of live assignments for an exact (license_key, device_id) pair. -/
def pairCount (s : Store) (license_key device_id : String) : Nat :=
  s.assignments.countP fun a => decide (a.license_key = license_key ∧ a.device_id = device_id)

/-- The capacity-exceeded detail string of AssignmentService.create_assignment
(assignment_service.py line 67). -/
def capacityDetail (license_key : String) (max_usage : Int) (current_usage : Nat) : String :=
  "License " ++ license_key ++ " has reached maximum usage (" ++ toString max_usage ++
    "). Currently assigned to " ++ toString current_usage ++ " devices."

/-- AssignmentService.create_assignment (assignment_service.py lines 16-81).
`newId` stands for the generated `str(uuid.uuid4())` and `now` for the
`assigned_at` default timestamp. -/
def create_assignment (newId : String) (now : Int) (license_key device_id assigned_by : String)
    (s : Store) : Except HTTPException Assignment × Store :=
  match getLicense s license_key with
  | none => (.error ⟨404, "License " ++ license_key ++ " not found"⟩, s)
  | some license =>
    match getDevice s device_id with
    | none => (.error ⟨404, "Device " ++ device_id ++ " not found"⟩, s)
    | some _device =>
      match findAssignmentPair s license_key device_id with
      | some _existing =>
        (.error ⟨400, "License " ++ license_key ++ " already assigned to device " ++ device_id⟩, s)
      | none =>
        let current_usage := countAssignments s license_key
        if (current_usage : Int) ≥ license.max_usage then
          (.error ⟨400, capacityDetail license_key license.max_usage current_usage⟩, s)
        else
          let assignment : Assignment :=
            { assignment_id := newId, license_key := license_key, device_id := device_id,
              assigned_by := assigned_by, assigned_at := now }
          (.ok assignment, { s with assignments := s.assignments ++ [assignment] })

/-- The dict returned by AssignmentService.delete_assignment. -/
structure ReleaseResult where
  message : String
  license_key : String
  device_id : String
deriving DecidableEq

/-- AssignmentService.delete_assignment (assignment_service.py lines 112-121);
the `get_assignment_by_id` lookup is inlined. -/
def delete_assignment (assignment_id : String) (s : Store) :
    Except HTTPException ReleaseResult × Store :=
  match findAssignment s assignment_id with
  | none => (.error ⟨404, "Assignment " ++ assignment_id ++ " not found"⟩, s)
  | some assignment =>
    (.ok { message := "Assignment " ++ assignment_id ++ " deleted successfully",
           license_key := assignment.license_key, device_id := assignment.device_id },
     { s with assignments := s.assignments.eraseP fun a => decide (a.assignment_id = assignment_id) })

/-- The dict returned by AssignmentService.get_license_utilization. -/
structure UtilizationReport where
  license_key : String
  software_name : String
  max_usage : Int
  current_usage : Nat
  available : Int
  utilization_percent : ℚ
  status : String
deriving DecidableEq

/-- The status ladder of get_license_utilization (lines 154-159). -/
def utilizationStatus (utilization_percent : ℚ) : String :=
  if utilization_percent ≥ 90 then "CRITICAL"
  else if utilization_percent ≥ 70 then "WARNING"
  else "OK"

/-- AssignmentService.get_license_utilization (assignment_service.py lines 123-169). -/
def get_license_utilization (license_key : String) (s : Store) :
    Except HTTPException UtilizationReport :=
  match getLicense s license_key with
  | none => .error ⟨404, "License " ++ license_key ++ " not found"⟩
  | some license =>
    let current_usage := countAssignments s license_key
    let max_usage := license.max_usage
    let available := max_usage - current_usage
    let utilization_percent : ℚ :=
      if max_usage > 0 then round2 ((current_usage : ℚ) / (max_usage : ℚ) * 100) else 0
    .ok { license_key := license_key, software_name := license.software_name,
          max_usage := max_usage, current_usage := current_usage, available := available,
          utilization_percent := utilization_percent,
          status := utilizationStatus utilization_percent }

/-- AlertService._get_expiry_severity (alert_service.py lines 190-199). -/
def expiry_severity (days_until_expiry : Int) : String :=
  if days_until_expiry ≤ 7 then "CRITICAL"
  else if days_until_expiry ≤ 15 then "HIGH"
  else if days_until_expiry ≤ 30 then "MEDIUM"
  else "LOW"

/-- AlertService._get_usage_severity (alert_service.py lines 201-210). -/
def usage_severity (usage_percentage : ℚ) : String :=
  if usage_percentage ≥ 95 then "CRITICAL"
  else if usage_percentage ≥ 90 then "HIGH"
  else if usage_percentage ≥ 75 then "WARNING"
  else "NORMAL"

/-- One alert dict of AlertService.get_expiring_licenses. -/
structure ExpiryAlert where
  license_key : String
  software_name : String
  vendor_id : String
  valid_to : Int
  days_until_expiry : Int
  assigned_devices : Nat
  severity : String
  message : String
deriving DecidableEq

/-- The alert dict built for one license in the loop of
AlertService.get_expiring_licenses (alert_service.py lines 30-47). -/
def expiryAlertOf (today : Int) (s : Store) (license : License) : ExpiryAlert :=
  let days_until_expiry := license.valid_to - today
  { license_key := license.license_key, software_name := license.software_name,
    vendor_id := license.vendor_id, valid_to := license.valid_to,
    days_until_expiry := days_until_expiry,
    assigned_devices := countAssignments s license.license_key,
    severity := expiry_severity days_until_expiry,
    message := license.software_name ++ " expires in " ++ toString days_until_expiry ++
      " day" ++ (if days_until_expiry ≠ 1 then "s" else "") }

/-- AlertService.get_expiring_licenses (alert_service.py lines 15-50);
`today` stands for date.today(). Python's `sorted` is a stable ascending
sort, modelled by `List.mergeSort`. -/
def get_expiring_licenses (today : Int) (days : Int) (s : Store) : List ExpiryAlert :=
  let threshold_date := today + days
  let licenses := s.licenses.filter fun l =>
    decide (l.valid_to ≤ threshold_date ∧ l.valid_to ≥ today)
  let alerts := licenses.map (expiryAlertOf today s)
  alerts.mergeSort fun a b => decide (a.days_until_expiry ≤ b.days_until_expiry)

/-- AlertService._get_device_risk_message (alert_service.py lines 212-220). -/
def device_risk_message (expired_count expiring_soon : Nat) : String :=
  let parts : List String :=
    (if expired_count > 0 then
      [toString expired_count ++ " expired license" ++ (if expired_count ≠ 1 then "s" else "")]
     else []) ++
    (if expiring_soon > 0 then [toString expiring_soon ++ " expiring soon"] else [])
  String.intercalate " • " parts

/-- One entry of AlertService.get_devices_at_risk. -/
structure DeviceRiskEntry where
  device_id : String
  device_type : String
  location : String
  ip_address : String
  expired_licenses : Nat
  expiring_soon : Nat
  expired_license_names : List String
  expiring_license_details : List (String × Int)
  severity : String
  message : String
deriving DecidableEq

/-- The loop body of AlertService.get_devices_at_risk for one device
(alert_service.py lines 100-137): classify the licenses assigned to the
device and build its at-risk entry, or none when the device has no expired
or soon-to-expire license. `assignment.license` follows the foreign key. -/
def deviceRiskEntryOf (today threshold_date : Int) (s : Store) (device : Device) :
    Option DeviceRiskEntry :=
  let assignments := s.assignments.filter fun a => decide (a.device_id = device.device_id)
  let licenses := assignments.filterMap fun a => getLicense s a.license_key
  let expired := licenses.filter fun l => decide (l.valid_to < today)
  let expiring := licenses.filter fun l =>
    decide (¬ l.valid_to < today ∧ l.valid_to ≤ threshold_date)
  let expired_count := expired.length
  let expiring_soon_count := expiring.length
  if expired_count > 0 ∨ expiring_soon_count > 0 then
    some { device_id := device.device_id, device_type := device.type,
           location := device.location, ip_address := device.ip_address,
           expired_licenses := expired_count, expiring_soon := expiring_soon_count,
           expired_license_names := expired.map (·.software_name),
           expiring_license_details := expiring.map fun l => (l.software_name, l.valid_to - today),
           severity := if expired_count > 0 then "CRITICAL" else "WARNING",
           message := device_risk_message expired_count expiring_soon_count }
  else none

/-- The Python sort key `(severity == WARNING, -expired_licenses)` compared
lexicographically (alert_service.py line 140). -/
def riskLE (a b : DeviceRiskEntry) : Bool :=
  let ka : Int := if a.severity = "WARNING" then 1 else 0
  let kb : Int := if b.severity = "WARNING" then 1 else 0
  decide (ka < kb ∨ (ka = kb ∧ -(a.expired_licenses : Int) ≤ -(b.expired_licenses : Int)))

/-- AlertService.get_devices_at_risk (alert_service.py lines 86-140). -/
def get_devices_at_risk (today : Int) (days_threshold : Int) (s : Store) :
    List DeviceRiskEntry :=
  let threshold_date := today + days_threshold
  let devices := s.devices.filter fun d => decide (d.status = DeviceStatus.ACTIVE)
  let at_risk := devices.filterMap (deviceRiskEntryOf today threshold_date s)
  at_risk.mergeSort riskLE

/-- The counts-only compliance report of AlertService.get_license_compliance_report. -/
structure AlertComplianceReport where
  total_licenses : Nat
  valid_licenses : Nat
  expiring_within_30_days : Nat
  expiring_within_60_days : Nat
  expired_licenses : Nat
  overused_licenses : Nat
  compliance_rate : ℚ
deriving DecidableEq

/-- AlertService.get_license_compliance_report (alert_service.py lines 222-265).
The loop increments exactly one expiry counter per license, chosen by the
if/elif chain on days_until_expiry, and the overused counter whenever
`usage >= license.max_usage * 0.9`; the counters are the `countP` of those
branch conditions. -/
def get_license_compliance_report (today : Int) (s : Store) : AlertComplianceReport :=
  let all_licenses := s.licenses
  let expired_count := all_licenses.countP fun license =>
    decide (license.valid_to - today < 0)
  let expiring_30_days := all_licenses.countP fun license =>
    decide (¬ license.valid_to - today < 0 ∧ license.valid_to - today ≤ 30)
  let expiring_60_days := all_licenses.countP fun license =>
    decide (¬ license.valid_to - today < 0 ∧ ¬ license.valid_to - today ≤ 30 ∧
      license.valid_to - today ≤ 60)
  let valid_count := all_licenses.countP fun license =>
    decide (¬ license.valid_to - today < 0 ∧ ¬ license.valid_to - today ≤ 30 ∧
      ¬ license.valid_to - today ≤ 60)
  let overused_count := all_licenses.countP fun license =>
    decide ((countAssignments s license.license_key : ℚ) ≥ (license.max_usage : ℚ) * (9/10))
  { total_licenses := all_licenses.length,
    valid_licenses := valid_count,
    expiring_within_30_days := expiring_30_days,
    expiring_within_60_days := expiring_60_days,
    expired_licenses := expired_count,
    overused_licenses := overused_count,
    compliance_rate :=
      if all_licenses ≠ [] then
        round2 ((valid_count : ℚ) / (all_licenses.length : ℚ) * 100)
      else 0 }

/-- The license_data dict built in the loop of
ReportService.generate_license_compliance_report (report_service.py lines 43-54). -/
structure LicenseReportEntry where
  license_key : String
  software_name : String
  vendor_id : String
  valid_from : Int
  valid_to : Int
  days_until_expiry : Int
  max_usage : Int
  current_usage : Nat
  usage_percentage : ℚ
  license_type : LicenseType
deriving DecidableEq

/-- The (unrounded) usage percentage computed at report_service.py line 41. -/
def reportUsagePercentage (s : Store) (license : License) : ℚ :=
  if license.max_usage > 0 then
    (countAssignments s license.license_key : ℚ) / (license.max_usage : ℚ) * 100
  else 0

/-- Builds the license_data dict of one license (report_service.py lines 43-54);
the dict carries the percentage rounded to two decimals. -/
def licenseReportEntryOf (today : Int) (s : Store) (license : License) : LicenseReportEntry :=
  { license_key := license.license_key, software_name := license.software_name,
    vendor_id := license.vendor_id, valid_from := license.valid_from,
    valid_to := license.valid_to, days_until_expiry := license.valid_to - today,
    max_usage := license.max_usage,
    current_usage := countAssignments s license.license_key,
    usage_percentage := round2 (reportUsagePercentage s license),
    license_type := license.license_type }

/-- The report returned by ReportService.generate_license_compliance_report;
summary counts are the lengths of the category lists. -/
structure ComplianceReport where
  total_licenses : Nat
  summary_valid : Nat
  summary_expiring_30 : Nat
  summary_expiring_60 : Nat
  summary_expired : Nat
  summary_overused : Nat
  summary_underutilized : Nat
  valid_licenses : List LicenseReportEntry
  expiring_30_days : List LicenseReportEntry
  expiring_60_days : List LicenseReportEntry
  expired_licenses : List LicenseReportEntry
  overused_licenses : List LicenseReportEntry
  underutilized_licenses : List LicenseReportEntry
  compliance_rate : ℚ
deriving DecidableEq

/-- ReportService.generate_license_compliance_report (report_service.py lines
18-90). The loop appends each license's dict to the category list chosen by the
if/elif chain on days_until_expiry, and independently to the overused list when
`usage_percentage >= 90` or (elif) to the underutilized list when `< 30`;
each list is thus the in-order map over the licenses passing its branch test. -/
def generate_license_compliance_report (today : Int) (s : Store) : ComplianceReport :=
  let all_licenses := s.licenses
  let entry := licenseReportEntryOf today s
  let expired_licenses :=
    (all_licenses.filter fun l => decide (l.valid_to - today < 0)).map entry
  let expiring_30_days :=
    (all_licenses.filter fun l =>
      decide (¬ l.valid_to - today < 0 ∧ l.valid_to - today ≤ 30)).map entry
  let expiring_60_days :=
    (all_licenses.filter fun l =>
      decide (¬ l.valid_to - today < 0 ∧ ¬ l.valid_to - today ≤ 30 ∧
        l.valid_to - today ≤ 60)).map entry
  let valid_licenses :=
    (all_licenses.filter fun l =>
      decide (¬ l.valid_to - today < 0 ∧ ¬ l.valid_to - today ≤ 30 ∧
        ¬ l.valid_to - today ≤ 60)).map entry
  let overused_licenses :=
    (all_licenses.filter fun l => decide (reportUsagePercentage s l ≥ 90)).map entry
  let underutilized_licenses :=
    (all_licenses.filter fun l =>
      decide (¬ reportUsagePercentage s l ≥ 90 ∧ reportUsagePercentage s l < 30)).map entry
  { total_licenses := all_licenses.length,
    summary_valid := valid_licenses.length,
    summary_expiring_30 := expiring_30_days.length,
    summary_expiring_60 := expiring_60_days.length,
    summary_expired := expired_licenses.length,
    summary_overused := overused_licenses.length,
    summary_underutilized := underutilized_licenses.length,
    valid_licenses := valid_licenses,
    expiring_30_days := expiring_30_days,
    expiring_60_days := expiring_60_days,
    expired_licenses := expired_licenses,
    overused_licenses := overused_licenses,
    underutilized_licenses := underutilized_licenses,
    compliance_rate :=
      if all_licenses ≠ [] then
        round2 ((valid_licenses.length : ℚ) / (all_licenses.length : ℚ) * 100)
      else 0 }

/-- The request body of POST /licenses (server.py LicenseCreate, lines 138-146):
`max_usage` is a plain int with no positivity constraint. -/
structure LicenseCreateData where
  license_key : String
  software_name : String
  vendor_id : String
  valid_from : Int
  valid_to : Int
  license_type : LicenseType
  max_usage : Int
  notes : Option String
deriving DecidableEq

/-- models.License(**license_data) -/
def licenseOfData (d : LicenseCreateData) : License :=
  { license_key := d.license_key, software_name := d.software_name,
    vendor_id := d.vendor_id, valid_from := d.valid_from, valid_to := d.valid_to,
    license_type := d.license_type, max_usage := d.max_usage, notes := d.notes }

/-- LicenseService.create_license (license_service.py lines 13-55): it checks
key uniqueness, vendor existence and valid_to > valid_from, then inserts. -/
def create_license (license_data : LicenseCreateData) (s : Store) :
    Except HTTPException License × Store :=
  match getLicense s license_data.license_key with
  | some _existing =>
    (.error ⟨400, "License key " ++ license_data.license_key ++ " already exists"⟩, s)
  | none =>
    match s.vendors.find? fun v => decide (v.vendor_id = license_data.vendor_id) with
    | none => (.error ⟨400, "Vendor " ++ license_data.vendor_id ++ " not found"⟩, s)
    | some _vendor =>
      if license_data.valid_to ≤ license_data.valid_from then
        (.error ⟨400, "valid_to must be after valid_from"⟩, s)
      else
        let license := licenseOfData license_data
        (.ok license, { s with licenses := s.licenses ++ [license] })

/-- States reachable from `s` by sequentially executed Allocation Engine
operations (create_assignment and delete_assignment), each applied only when
it succeeds. -/
inductive Reachable : Store → Store → Prop
  | refl (s : Store) : Reachable s s
  | create {s t u : Store} {newId : String} {now : Int} {lk did ab : String} {a : Assignment}
      (h : Reachable s t)
      (hop : create_assignment newId now lk did ab t = (.ok a, u)) : Reachable s u
  | del {s t u : Store} {aid : String} {r : ReleaseResult}
      (h : Reachable s t)
      (hop : delete_assignment aid t = (.ok r, u)) : Reachable s u

/-- Inversion of a successful create_assignment call: every precondition held
and the only change is the appended assignment. -/
theorem create_assignment_ok {newId : String} {now : Int} {lk did ab : String} {s : Store}
    {a : Assignment} {u : Store}
    (h : create_assignment newId now lk did ab s = (.ok a, u)) :
    ∃ license, getLicense s lk = some license ∧
      findAssignmentPair s lk did = none ∧
      ¬ (countAssignments s lk : Int) ≥ license.max_usage ∧
      a = { assignment_id := newId, license_key := lk, device_id := did,
            assigned_by := ab, assigned_at := now } ∧
      u = { s with assignments := s.assignments ++ [a] } := by
  unfold create_assignment at h
  cases hl : getLicense s lk with
  | none => rw [hl] at h; simp at h
  | some license =>
    rw [hl] at h
    cases hd : getDevice s did with
    | none => rw [hd] at h; simp at h
    | some dev =>
      rw [hd] at h
      cases hp : findAssignmentPair s lk did with
      | some a0 => rw [hp] at h; simp at h
      | none =>
        rw [hp] at h
        by_cases hc : (countAssignments s lk : Int) ≥ license.max_usage
        · simp [hc] at h
        · simp only [if_neg hc, Prod.mk.injEq, Except.ok.injEq] at h
          obtain ⟨ha, hu⟩ := h
          exact ⟨license, rfl, rfl, hc, ha.symm, by rw [← hu, ← ha]⟩

/-- Inversion of a successful delete_assignment call. -/
theorem delete_assignment_ok {aid : String} {s : Store} {r : ReleaseResult} {u : Store}
    (h : delete_assignment aid s = (.ok r, u)) :
    ∃ a, findAssignment s aid = some a ∧
      r = ⟨"Assignment " ++ aid ++ " deleted successfully", a.license_key, a.device_id⟩ ∧
      u = { s with assignments :=
              s.assignments.eraseP fun x => decide (x.assignment_id = aid) } := by
  unfold delete_assignment at h
  cases hf : findAssignment s aid with
  | none => rw [hf] at h; simp at h
  | some a =>
    rw [hf] at h
    simp only [Prod.mk.injEq, Except.ok.injEq] at h
    obtain ⟨hr, hu⟩ := h
    exact ⟨a, rfl, hr.symm, hu.symm⟩

/-- Allocation Engine operations touch only the assignments table. -/
theorem Reachable.tables_eq {s t : Store} (h : Reachable s t) :
    t.licenses = s.licenses ∧ t.devices = s.devices ∧ t.vendors = s.vendors := by
  induction h with
  | refl => exact ⟨rfl, rfl, rfl⟩
  | create h hop ih =>
    obtain ⟨lic, _, _, _, _, hu⟩ := create_assignment_ok hop
    subst hu
    simpa using ih
  | del h hop ih =>
    obtain ⟨a, _, _, hu⟩ := delete_assignment_ok hop
    subst hu
    simpa using ih

/-- Claim C1: for every license L with max_usage = M, where M is at least the
number of assignments referencing L in the initial state, the number of live
assignments referencing L never exceeds M in any state reached by sequentially
executed create_assignment / delete_assignment operations. -/
theorem capacity_invariant (s t : Store) (h : Reachable s t) (lk : String) (license : License)
    (hlic : getLicense s lk = some license)
    (hinit : (countAssignments s lk : Int) ≤ license.max_usage) :
    (countAssignments t lk : Int) ≤ license.max_usage := by
  induction h with
  | refl => exact hinit
  | @create t0 u newId now lk0 did ab a h hop ih =>
    obtain ⟨lic0, hlic0, hpair, hcap, ha, hu⟩ := create_assignment_ok hop
    subst hu
    have hsplit : countAssignments { t0 with assignments := t0.assignments ++ [a] } lk =
        countAssignments t0 lk +
          List.countP (fun x => decide (x.license_key = lk)) [a] := by
      simp [countAssignments, List.countP_append]
    by_cases hk : a.license_key = lk
    · have hone : List.countP (fun x => decide (x.license_key = lk)) [a] = 1 := by
        simp [List.countP_cons, hk]
      have hkeys : lk0 = lk := by rw [ha] at hk; exact hk
      subst hkeys
      have hg : getLicense t0 lk0 = getLicense s lk0 := by
        unfold getLicense; rw [(Reachable.tables_eq h).1]
      rw [hg, hlic] at hlic0
      have hval : license = lic0 := by injection hlic0
      subst hval
      have hlt : (countAssignments t0 lk0 : Int) < license.max_usage := lt_of_not_ge hcap
      rw [hsplit, hone]
      push_cast
      omega
    · have hzero : List.countP (fun x => decide (x.license_key = lk)) [a] = 0 := by
        simp [List.countP_cons, hk]
      rw [hsplit, hzero]
      simpa using ih
  | @del t0 u aid r h hop ih =>
    obtain ⟨a, hf, hr, hu⟩ := delete_assignment_ok hop
    subst hu
    have hle : countAssignments
        { t0 with assignments := t0.assignments.eraseP fun x => decide (x.assignment_id = aid) }
          lk ≤ countAssignments t0 lk :=
      List.Sublist.countP_le _ (List.eraseP_sublist _)
    exact le_trans (by exact_mod_cast hle) ih

/-- Claim C3: if at most one live assignment binds each (license_key,
device_id) pair in the initial state, the same holds in every state reached by
sequentially executed create_assignment / delete_assignment operations. -/
theorem uniqueness_invariant (s t : Store) (h : Reachable s t)
    (hs : ∀ lk did, pairCount s lk did ≤ 1) :
    ∀ lk did, pairCount t lk did ≤ 1 := by
  induction h with
  | refl => exact hs
  | @create t0 u newId now lk0 did0 ab a h hop ih =>
    intro lk did
    obtain ⟨lic0, hlic0, hpair, hcap, ha, hu⟩ := create_assignment_ok hop
    subst hu
    have hsplit : pairCount { t0 with assignments := t0.assignments ++ [a] } lk did =
        pairCount t0 lk did +
          List.countP (fun x => decide (x.license_key = lk ∧ x.device_id = did)) [a] := by
      simp [pairCount, List.countP_append]
    by_cases hm : a.license_key = lk ∧ a.device_id = did
    · have hone : List.countP (fun x => decide (x.license_key = lk ∧ x.device_id = did)) [a] = 1 := by
        simp [List.countP_cons, hm]
      have hlk : lk0 = lk := by rw [ha] at hm; exact hm.1
      have hdid : did0 = did := by rw [ha] at hm; exact hm.2
      subst hlk; subst hdid
      have hzero : pairCount t0 lk0 did0 = 0 := by
        rw [pairCount, List.countP_eq_zero]
        intro x hx
        have := List.find?_eq_none.mp hpair x hx
        simpa using this
      rw [hsplit, hone, hzero]
    · have hzero : List.countP (fun x => decide (x.license_key = lk ∧ x.device_id = did)) [a] = 0 := by
        simp [List.countP_cons, hm]
      rw [hsplit, hzero]
      simpa using ih lk did
  | @del t0 u aid r h hop ih =>
    intro lk did
    obtain ⟨a, hf, hr, hu⟩ := delete_assignment_ok hop
    subst hu
    have hle : pairCount
        { t0 with assignments := t0.assignments.eraseP fun x => decide (x.assignment_id = aid) }
          lk did ≤ pairCount t0 lk did :=
      List.Sublist.countP_le _ (List.eraseP_sublist _)
    exact le_trans hle (ih lk did)

/-- Claim C2: create_assignment checks its preconditions in order with first
failure winning — missing license, then missing device, then duplicate
(license_key, device_id) pair, then capacity (whose message carries the current
count and the limit); when all pass it appends exactly one new assignment for
the pair, carrying the freshly generated id. -/
theorem assign_preconditions (s : Store) (newId : String) (now : Int)
    (lk did ab : String) :
    (getLicense s lk = none →
      create_assignment newId now lk did ab s =
        (.error ⟨404, "License " ++ lk ++ " not found"⟩, s)) ∧
    (∀ license, getLicense s lk = some license → getDevice s did = none →
      create_assignment newId now lk did ab s =
        (.error ⟨404, "Device " ++ did ++ " not found"⟩, s)) ∧
    (∀ license device existing, getLicense s lk = some license →
      getDevice s did = some device → findAssignmentPair s lk did = some existing →
      create_assignment newId now lk did ab s =
        (.error ⟨400, "License " ++ lk ++ " already assigned to device " ++ did⟩, s)) ∧
    (∀ license device, getLicense s lk = some license → getDevice s did = some device →
      findAssignmentPair s lk did = none →
      (countAssignments s lk : Int) ≥ license.max_usage →
      create_assignment newId now lk did ab s =
        (.error ⟨400, capacityDetail lk license.max_usage (countAssignments s lk)⟩, s)) ∧
    (∀ max_usage current_usage, ∃ pre1 post1 pre2 post2,
      capacityDetail lk max_usage current_usage =
        pre1 ++ toString current_usage ++ post1 ∧
      capacityDetail lk max_usage current_usage =
        pre2 ++ toString max_usage ++ post2) ∧
    (∀ license device, getLicense s lk = some license → getDevice s did = some device →
      findAssignmentPair s lk did = none →
      (countAssignments s lk : Int) < license.max_usage →
      create_assignment newId now lk did ab s =
        (.ok { assignment_id := newId, license_key := lk, device_id := did,
               assigned_by := ab, assigned_at := now },
         { s with assignments := s.assignments ++
            [{ assignment_id := newId, license_key := lk, device_id := did,
               assigned_by := ab, assigned_at := now }] }) ∧
      pairCount (create_assignment newId now lk did ab s).2 lk did = 1 ∧
      (newId ∉ s.assignments.map Assignment.assignment_id →
        (create_assignment newId now lk did ab s).2.assignments.countP
          (fun x => decide (x.assignment_id = newId)) = 1)) := by
  refine ⟨?_, ?_, ?_, ?_, ?_, ?_⟩
  · intro hl
    simp [create_assignment, hl]
  · intro license hl hd
    simp [create_assignment, hl, hd]
  · intro license device existing hl hd hp
    simp [create_assignment, hl, hd, hp]
  · intro license device hl hd hp hc
    simp [create_assignment, hl, hd, hp, hc]
  · intro max_usage current_usage
    refine ⟨"License " ++ lk ++ " has reached maximum usage (" ++ toString max_usage ++
        "). Currently assigned to ", " devices.",
      "License " ++ lk ++ " has reached maximum usage (",
      "). Currently assigned to " ++ toString current_usage ++ " devices.", rfl, ?_⟩
    simp only [capacityDetail, String.append_assoc]
  · intro license device hl hd hp hc
    have hnot : ¬ (countAssignments s lk : Int) ≥ license.max_usage := not_le.mpr hc
    have heq : create_assignment newId now lk did ab s =
        (.ok { assignment_id := newId, license_key := lk, device_id := did,
               assigned_by := ab, assigned_at := now },
         { s with assignments := s.assignments ++
            [{ assignment_id := newId, license_key := lk, device_id := did,
               assigned_by := ab, assigned_at := now }] }) := by
      simp [create_assignment, hl, hd, hp, hnot]
    refine ⟨heq, ?_, ?_⟩
    · have hzero : pairCount s lk did = 0 := by
        rw [pairCount, List.countP_eq_zero]
        intro x hx
        have := List.find?_eq_none.mp hp x hx
        simpa using this
      rw [heq]
      simp only [pairCount, List.countP_append, List.countP_cons, List.countP_nil] at hzero ⊢
      simp
      intro x hx hlk
      have hnx := List.countP_eq_zero.mp hzero x hx
      simp [hlk] at hnx
      exact hnx
    · intro hfresh
      rw [heq]
      have hzero : s.assignments.countP (fun x => decide (x.assignment_id = newId)) = 0 := by
        rw [List.countP_eq_zero]
        intro x hx hcontra
        apply hfresh
        rw [List.mem_map]
        exact ⟨x, hx, by simpa using hcontra⟩
      simp [List.countP_append, List.countP_cons, hzero]

/-- Claim C4 (amended): get_license_utilization fails with 404 when the license
is absent; otherwise the report carries max_usage, the live assignment count,
available = max_usage - current_usage (also when that difference is ≤ 0),
utilization_percent = current/max*100 rounded to two decimals (0 when max_usage
is not positive), and the CRITICAL/WARNING/OK tiers applied to that value. -/
theorem utilization_report (s : Store) (lk : String) :
    (getLicense s lk = none →
      get_license_utilization lk s = .error ⟨404, "License " ++ lk ++ " not found"⟩) ∧
    (∀ license, getLicense s lk = some license →
      ∃ r, get_license_utilization lk s = .ok r ∧
        r.max_usage = license.max_usage ∧
        r.current_usage = countAssignments s lk ∧
        r.available = license.max_usage - countAssignments s lk ∧
        r.utilization_percent =
          (if license.max_usage > 0 then
            round2 ((countAssignments s lk : ℚ) / (license.max_usage : ℚ) * 100) else 0) ∧
        (r.utilization_percent ≥ 90 → r.status = "CRITICAL") ∧
        (70 ≤ r.utilization_percent → r.utilization_percent < 90 → r.status = "WARNING") ∧
        (r.utilization_percent < 70 → r.status = "OK")) := by
  constructor
  · intro hl
    simp [get_license_utilization, hl]
  · intro license hl
    refine ⟨{ license_key := lk, software_name := license.software_name,
              max_usage := license.max_usage,
              current_usage := countAssignments s lk,
              available := license.max_usage - countAssignments s lk,
              utilization_percent :=
                if license.max_usage > 0 then
                  round2 ((countAssignments s lk : ℚ) / (license.max_usage : ℚ) * 100) else 0,
              status := utilizationStatus
                (if license.max_usage > 0 then
                  round2 ((countAssignments s lk : ℚ) / (license.max_usage : ℚ) * 100) else 0) },
      ?_, rfl, rfl, rfl, rfl, ?_, ?_, ?_⟩
    · simp [get_license_utilization, hl]
    · intro h90
      simp only [utilizationStatus, if_pos h90]
    · intro h70 h90
      simp only [utilizationStatus, if_neg (not_le.mpr h90), if_pos h70]
    · intro h70
      have h90 : ¬ (90 : ℚ) ≤ _ := not_le.mpr (lt_trans h70 (by norm_num))
      simp only [utilizationStatus, if_neg h90, if_neg (not_le.mpr h70)]

/-- A store with one license of capacity 3 and one live assignment:
current/max*100 is 100/3, which no two-decimal value equals. -/
def storeOneOfThree : Store :=
  { vendors := [⟨"V1", "Acme", none⟩],
    licenses := [⟨"LIC-1", "AppX", "V1", 0, 365, .ENTERPRISE, 3, none⟩],
    devices := [⟨"DEV-A", "router", "10.0.0.1", "HQ", none, .ACTIVE⟩],
    assignments := [⟨"A1", "LIC-1", "DEV-A", "U1", 0⟩] }

/-- Evaluation helper: the floor of 10000/3. -/
theorem floor_ten_thousand_thirds : ⌊(10000 : ℚ)/3⌋ = 3333 := by
  rw [Int.floor_eq_iff]
  constructor <;> norm_num

/-- Evaluation helper: one third as a percentage rounds to 33.33. -/
theorem round2_one_third_percent : round2 ((100 : ℚ)/3) = 3333/100 := by
  have h1 : ((100 : ℚ)/3) * 100 = 10000/3 := by norm_num
  rw [round2, h1]
  rw [show roundHalfEven ((10000 : ℚ)/3) = 3333 by
    simp only [roundHalfEven, floor_ten_thousand_thirds]
    norm_num]
  norm_num

/-- Counterexample to claim C4 as stated: with 1 of 3 seats taken the service
reports utilization_percent 33.33, not the exact current/max*100 = 100/3. -/
theorem utilization_exact_percentage_counterexample :
    (get_license_utilization "LIC-1" storeOneOfThree).toOption.map
        UtilizationReport.utilization_percent = some (3333/100 : ℚ) ∧
    (3333/100 : ℚ) ≠ (1 : ℚ) / 3 * 100 := by
  have hget : getLicense storeOneOfThree "LIC-1" =
      some ⟨"LIC-1", "AppX", "V1", 0, 365, .ENTERPRISE, 3, none⟩ := rfl
  have hcount : countAssignments storeOneOfThree "LIC-1" = 1 := rfl
  constructor
  · simp only [get_license_utilization, hget, hcount, Except.toOption, Option.map]
    norm_num [round2_one_third_percent]
  · norm_num

/-- Removing the first element satisfying p, given that nothing before it does. -/
theorem eraseP_of_prefix_not {α : Type} {p : α → Bool} {l1 l2 : List α} {a : α}
    (h1 : ∀ b ∈ l1, ¬ p b) (ha : p a) : (l1 ++ a :: l2).eraseP p = l1 ++ l2 := by
  induction l1 with
  | nil => simp [List.eraseP_cons, ha]
  | cons x xs ih =>
    have hx : ¬ p x := h1 x (List.mem_cons_self x xs)
    simp only [List.cons_append, List.eraseP_cons, Bool.cond_eq_if, if_neg hx]
    rw [ih fun b hb => h1 b (List.mem_cons_of_mem x hb)]

/-- Claim C5: delete_assignment fails with 404 and leaves the store unchanged
when the id is absent; otherwise it removes exactly that assignment, keeps
every other record, and returns the license_key and device_id it referenced. -/
theorem release_assignment (s : Store) (aid : String) :
    (findAssignment s aid = none →
      delete_assignment aid s = (.error ⟨404, "Assignment " ++ aid ++ " not found"⟩, s)) ∧
    (∀ a, findAssignment s aid = some a →
      ∃ l1 l2, s.assignments = l1 ++ a :: l2 ∧
        (∀ b ∈ l1, ¬ b.assignment_id = aid) ∧
        a.assignment_id = aid ∧
        delete_assignment aid s =
          (.ok { message := "Assignment " ++ aid ++ " deleted successfully",
                 license_key := a.license_key, device_id := a.device_id },
           { s with assignments := l1 ++ l2 })) := by
  constructor
  · intro hf
    simp [delete_assignment, hf]
  · intro a hf
    have hf2 := hf
    rw [findAssignment] at hf2
    obtain ⟨hpa, l1, l2, hsplit, hpre⟩ := List.find?_eq_some.mp hf2
    have hpre2 : ∀ b ∈ l1, ¬ b.assignment_id = aid := by
      intro b hb
      have := hpre b hb
      simpa using this
    have herase : s.assignments.eraseP (fun x => decide (x.assignment_id = aid)) = l1 ++ l2 := by
      rw [hsplit]
      exact eraseP_of_prefix_not (fun b hb => by simpa using hpre2 b hb) hpa
    refine ⟨l1, l2, hsplit, hpre2, by simpa using hpa, ?_⟩
    simp [delete_assignment, hf, herase]

/-- Claim C6: get_expiring_licenses returns exactly the licenses with
today ≤ valid_to ≤ today + days (already-expired ones excluded), sorted
ascending by days_until_expiry, each entry classified by the expiry-severity
ladder, whose boundary values are CRITICAL at 7, HIGH at 8 and 15, MEDIUM at
16 and 30, LOW at 31. -/
theorem expiring_licenses_spec (s : Store) (today days : Int) :
    (∀ e, e ∈ get_expiring_licenses today days s ↔
      ∃ license, license ∈ s.licenses ∧ today ≤ license.valid_to ∧
        license.valid_to ≤ today + days ∧ e = expiryAlertOf today s license) ∧
    (get_expiring_licenses today days s).Pairwise
      (fun a b => a.days_until_expiry ≤ b.days_until_expiry) ∧
    (∀ e ∈ get_expiring_licenses today days s,
      e.severity = expiry_severity e.days_until_expiry) ∧
    expiry_severity 7 = "CRITICAL" ∧ expiry_severity 8 = "HIGH" ∧
    expiry_severity 15 = "HIGH" ∧ expiry_severity 16 = "MEDIUM" ∧
    expiry_severity 30 = "MEDIUM" ∧ expiry_severity 31 = "LOW" := by
  have hmem : ∀ e, e ∈ get_expiring_licenses today days s ↔
      ∃ license, license ∈ s.licenses ∧ today ≤ license.valid_to ∧
        license.valid_to ≤ today + days ∧ e = expiryAlertOf today s license := by
    intro e
    simp only [get_expiring_licenses, List.mem_mergeSort, List.mem_map, List.mem_filter,
      decide_eq_true_eq]
    constructor
    · rintro ⟨license, ⟨hm, h1, h2⟩, rfl⟩
      exact ⟨license, hm, h2, h1, rfl⟩
    · rintro ⟨license, hm, h2, h1, rfl⟩
      exact ⟨license, ⟨hm, h1, h2⟩, rfl⟩
  refine ⟨hmem, ?_, ?_, by decide, by decide, by decide, by decide, by decide, by decide⟩
  · have hs := @List.sorted_mergeSort ExpiryAlert
      (fun a b : ExpiryAlert => decide (a.days_until_expiry ≤ b.days_until_expiry))
      (by intro a b c hab hbc; simp only [decide_eq_true_eq] at *; omega)
      (by intro a b; simp only [Bool.or_eq_true, decide_eq_true_eq]; omega)
      ((s.licenses.filter fun l =>
        decide (l.valid_to ≤ today + days ∧ l.valid_to ≥ today)).map (expiryAlertOf today s))
    have : get_expiring_licenses today days s =
        ((s.licenses.filter fun l =>
          decide (l.valid_to ≤ today + days ∧ l.valid_to ≥ today)).map
            (expiryAlertOf today s)).mergeSort
          (fun a b => decide (a.days_until_expiry ≤ b.days_until_expiry)) := rfl
    rw [this]
    exact hs.imp (by intro a b hab; simpa using hab)
  · intro e he
    obtain ⟨license, _, _, _, rfl⟩ := (hmem e).mp he
    rfl

/-- The four expiry branch conditions of the compliance reports count every
license exactly once. -/
theorem countP_expiry_partition (today : Int) (l : List License) :
    l.countP (fun x => decide (¬ x.valid_to - today < 0 ∧ ¬ x.valid_to - today ≤ 30 ∧
        ¬ x.valid_to - today ≤ 60)) +
      l.countP (fun x => decide (¬ x.valid_to - today < 0 ∧ x.valid_to - today ≤ 30)) +
      l.countP (fun x => decide (¬ x.valid_to - today < 0 ∧ ¬ x.valid_to - today ≤ 30 ∧
        x.valid_to - today ≤ 60)) +
      l.countP (fun x => decide (x.valid_to - today < 0)) = l.length := by
  induction l with
  | nil => rfl
  | cons x xs ih =>
    simp only [List.countP_cons, List.length_cons]
    generalize hA : List.countP (fun x => decide (¬ x.valid_to - today < 0 ∧
      ¬ x.valid_to - today ≤ 30 ∧ ¬ x.valid_to - today ≤ 60)) xs = a at ih ⊢
    generalize hB : List.countP (fun x => decide (¬ x.valid_to - today < 0 ∧
      x.valid_to - today ≤ 30)) xs = b at ih ⊢
    generalize hC : List.countP (fun x => decide (¬ x.valid_to - today < 0 ∧
      ¬ x.valid_to - today ≤ 30 ∧ x.valid_to - today ≤ 60)) xs = c at ih ⊢
    generalize hD : List.countP (fun x => decide (x.valid_to - today < 0)) xs = d at ih ⊢
    by_cases h0 : x.valid_to - today < 0 <;> by_cases h30 : x.valid_to - today ≤ 30 <;>
      by_cases h60 : x.valid_to - today ≤ 60 <;> simp [h0, h30, h60] <;> omega

/-- The days_until_expiry field determines the expiry bucket of an entry. -/
theorem licenseReportEntryOf_days (today : Int) (s : Store) (license : License) :
    (licenseReportEntryOf today s license).days_until_expiry = license.valid_to - today := rfl

/-- Claim C7 (amended): generate_license_compliance_report puts every license in
exactly one of the four expiry buckets, the four bucket sizes sum to
total_licenses, and compliance_rate is valid/total*100 rounded to two decimals
(0 when there are no licenses). -/
theorem compliance_bucket_partition (s : Store) (today : Int) :
    (generate_license_compliance_report today s).summary_valid +
        (generate_license_compliance_report today s).summary_expiring_30 +
        (generate_license_compliance_report today s).summary_expiring_60 +
        (generate_license_compliance_report today s).summary_expired =
      (generate_license_compliance_report today s).total_licenses ∧
    (generate_license_compliance_report today s).total_licenses = s.licenses.length ∧
    (∀ license ∈ s.licenses,
      ((licenseReportEntryOf today s license ∈
          (generate_license_compliance_report today s).expired_licenses ∧
        licenseReportEntryOf today s license ∉
          (generate_license_compliance_report today s).expiring_30_days ∧
        licenseReportEntryOf today s license ∉
          (generate_license_compliance_report today s).expiring_60_days ∧
        licenseReportEntryOf today s license ∉
          (generate_license_compliance_report today s).valid_licenses) ∨
      (licenseReportEntryOf today s license ∉
          (generate_license_compliance_report today s).expired_licenses ∧
        licenseReportEntryOf today s license ∈
          (generate_license_compliance_report today s).expiring_30_days ∧
        licenseReportEntryOf today s license ∉
          (generate_license_compliance_report today s).expiring_60_days ∧
        licenseReportEntryOf today s license ∉
          (generate_license_compliance_report today s).valid_licenses) ∨
      (licenseReportEntryOf today s license ∉
          (generate_license_compliance_report today s).expired_licenses ∧
        licenseReportEntryOf today s license ∉
          (generate_license_compliance_report today s).expiring_30_days ∧
        licenseReportEntryOf today s license ∈
          (generate_license_compliance_report today s).expiring_60_days ∧
        licenseReportEntryOf today s license ∉
          (generate_license_compliance_report today s).valid_licenses) ∨
      (licenseReportEntryOf today s license ∉
          (generate_license_compliance_report today s).expired_licenses ∧
        licenseReportEntryOf today s license ∉
          (generate_license_compliance_report today s).expiring_30_days ∧
        licenseReportEntryOf today s license ∉
          (generate_license_compliance_report today s).expiring_60_days ∧
        licenseReportEntryOf today s license ∈
          (generate_license_compliance_report today s).valid_licenses))) ∧
    (generate_license_compliance_report today s).compliance_rate =
      (if s.licenses ≠ [] then
        round2 (((generate_license_compliance_report today s).summary_valid : ℚ) /
          (s.licenses.length : ℚ) * 100)
      else 0) := by
  refine ⟨?_, rfl, ?_, rfl⟩
  · simp only [generate_license_compliance_report, List.length_map,
      ← List.countP_eq_length_filter]
    exact countP_expiry_partition today s.licenses
  · intro license hmem
    have hbucket : ∀ (p : License → Bool),
        licenseReportEntryOf today s license ∈
          ((s.licenses.filter p).map (licenseReportEntryOf today s)) ↔
        ∃ l2, l2 ∈ s.licenses ∧ p l2 = true ∧
          licenseReportEntryOf today s l2 = licenseReportEntryOf today s license := by
      intro p
      simp only [List.mem_map, List.mem_filter]
      constructor
      · rintro ⟨l2, ⟨h1, h2⟩, h3⟩
        exact ⟨l2, h1, h2, h3⟩
      · rintro ⟨l2, h1, h2, h3⟩
        exact ⟨l2, ⟨h1, h2⟩, h3⟩
    have hdays : ∀ l2 : License,
        licenseReportEntryOf today s l2 = licenseReportEntryOf today s license →
        l2.valid_to - today = license.valid_to - today := by
      intro l2 h
      have := congrArg LicenseReportEntry.days_until_expiry h
      simpa [licenseReportEntryOf_days] using this
    simp only [generate_license_compliance_report]
    by_cases h0 : license.valid_to - today < 0
    · refine Or.inl ⟨?_, ?_, ?_, ?_⟩
      · exact (hbucket _).mpr ⟨license, hmem, by simp [h0], rfl⟩
      · intro hin
        obtain ⟨l2, _, hp, hd⟩ := (hbucket _).mp hin
        have := hdays l2 hd
        simp only [decide_eq_true_eq] at hp
        omega
      · intro hin
        obtain ⟨l2, _, hp, hd⟩ := (hbucket _).mp hin
        have := hdays l2 hd
        simp only [decide_eq_true_eq] at hp
        omega
      · intro hin
        obtain ⟨l2, _, hp, hd⟩ := (hbucket _).mp hin
        have := hdays l2 hd
        simp only [decide_eq_true_eq] at hp
        omega
    · by_cases h30 : license.valid_to - today ≤ 30
      · refine Or.inr (Or.inl ⟨?_, ?_, ?_, ?_⟩)
        · intro hin
          obtain ⟨l2, _, hp, hd⟩ := (hbucket _).mp hin
          have := hdays l2 hd
          simp only [decide_eq_true_eq] at hp
          omega
        · exact (hbucket _).mpr ⟨license, hmem, by simp [h0, h30], rfl⟩
        · intro hin
          obtain ⟨l2, _, hp, hd⟩ := (hbucket _).mp hin
          have := hdays l2 hd
          simp only [decide_eq_true_eq] at hp
          omega
        · intro hin
          obtain ⟨l2, _, hp, hd⟩ := (hbucket _).mp hin
          have := hdays l2 hd
          simp only [decide_eq_true_eq] at hp
          omega
      · by_cases h60 : license.valid_to - today ≤ 60
        · refine Or.inr (Or.inr (Or.inl ⟨?_, ?_, ?_, ?_⟩))
          · intro hin
            obtain ⟨l2, _, hp, hd⟩ := (hbucket _).mp hin
            have := hdays l2 hd
            simp only [decide_eq_true_eq] at hp
            omega
          · intro hin
            obtain ⟨l2, _, hp, hd⟩ := (hbucket _).mp hin
            have := hdays l2 hd
            simp only [decide_eq_true_eq] at hp
            omega
          · exact (hbucket _).mpr ⟨license, hmem, by simp [h0, h30, h60], rfl⟩
          · intro hin
            obtain ⟨l2, _, hp, hd⟩ := (hbucket _).mp hin
            have := hdays l2 hd
            simp only [decide_eq_true_eq] at hp
            omega
        · refine Or.inr (Or.inr (Or.inr ⟨?_, ?_, ?_, ?_⟩))
          · intro hin
            obtain ⟨l2, _, hp, hd⟩ := (hbucket _).mp hin
            have := hdays l2 hd
            simp only [decide_eq_true_eq] at hp
            omega
          · intro hin
            obtain ⟨l2, _, hp, hd⟩ := (hbucket _).mp hin
            have := hdays l2 hd
            simp only [decide_eq_true_eq] at hp
            omega
          · intro hin
            obtain ⟨l2, _, hp, hd⟩ := (hbucket _).mp hin
            have := hdays l2 hd
            simp only [decide_eq_true_eq] at hp
            omega
          · exact (hbucket _).mpr ⟨license, hmem, by simp [h0, h30, h60], rfl⟩

/-- A store with one still-valid license and two expired ones. -/
def storeOneValidOfThree : Store :=
  { vendors := [⟨"V1", "Acme", none⟩],
    licenses := [⟨"LIC-V", "Good", "V1", 0, 100, .PER_USER, 5, none⟩,
                 ⟨"LIC-E1", "Old1", "V1", -400, -10, .PER_USER, 5, none⟩,
                 ⟨"LIC-E2", "Old2", "V1", -400, -10, .PER_USER, 5, none⟩],
    devices := [],
    assignments := [] }

/-- Counterexample to claim C7 as stated: with 1 valid license of 3 the report
carries compliance_rate 33.33, not the exact valid/total*100 = 100/3. -/
theorem compliance_rate_exact_counterexample :
    (generate_license_compliance_report 0 storeOneValidOfThree).summary_valid = 1 ∧
    (generate_license_compliance_report 0 storeOneValidOfThree).total_licenses = 3 ∧
    (generate_license_compliance_report 0 storeOneValidOfThree).compliance_rate = 3333/100 ∧
    (3333/100 : ℚ) ≠ (1 : ℚ) / 3 * 100 := by
  refine ⟨rfl, rfl, ?_, by norm_num⟩
  have hstep : (generate_license_compliance_report 0 storeOneValidOfThree).compliance_rate =
      round2 (((1 : ℕ) : ℚ) / ((3 : ℕ) : ℚ) * 100) := rfl
  rw [hstep]
  have hval : (((1 : ℕ) : ℚ) / ((3 : ℕ) : ℚ) * 100) = 100/3 := by push_cast; ring
  rw [hval, round2_one_third_percent]

/-- For a positive capacity the two overused conditions of the compliance
reports coincide: count ≥ 0.9·max iff count/max·100 ≥ 90. -/
theorem overused_conditions_agree (u : ℕ) (m : ℤ) (hm : 0 < m) :
    ((u : ℚ) ≥ (m : ℚ) * (9/10)) ↔ (u : ℚ) / (m : ℚ) * 100 ≥ 90 := by
  have hmq : (0 : ℚ) < (m : ℚ) := by exact_mod_cast hm
  rw [ge_iff_le, ge_iff_le, div_mul_eq_mul_div, le_div_iff₀ hmq]
  constructor
  · intro h; nlinarith
  · intro h; nlinarith

/-- Claim C9 (amended): the two compliance-report implementations agree on
total_licenses, all four expiry-bucket counts and compliance_rate on every
store; their overused counts agree whenever every license has positive
max_usage (they can differ when some max_usage is ≤ 0). -/
theorem compliance_reports_agree (s : Store) (today : Int) :
    (get_license_compliance_report today s).total_licenses =
      (generate_license_compliance_report today s).total_licenses ∧
    (get_license_compliance_report today s).valid_licenses =
      (generate_license_compliance_report today s).summary_valid ∧
    (get_license_compliance_report today s).expiring_within_30_days =
      (generate_license_compliance_report today s).summary_expiring_30 ∧
    (get_license_compliance_report today s).expiring_within_60_days =
      (generate_license_compliance_report today s).summary_expiring_60 ∧
    (get_license_compliance_report today s).expired_licenses =
      (generate_license_compliance_report today s).summary_expired ∧
    (get_license_compliance_report today s).compliance_rate =
      (generate_license_compliance_report today s).compliance_rate ∧
    ((∀ license ∈ s.licenses, 0 < license.max_usage) →
      (get_license_compliance_report today s).overused_licenses =
        (generate_license_compliance_report today s).summary_overused) := by
  refine ⟨rfl, ?_, ?_, ?_, ?_, ?_, ?_⟩
  · simp [get_license_compliance_report, generate_license_compliance_report,
      List.length_map, ← List.countP_eq_length_filter]
  · simp [get_license_compliance_report, generate_license_compliance_report,
      List.length_map, ← List.countP_eq_length_filter]
  · simp [get_license_compliance_report, generate_license_compliance_report,
      List.length_map, ← List.countP_eq_length_filter]
  · simp [get_license_compliance_report, generate_license_compliance_report,
      List.length_map, ← List.countP_eq_length_filter]
  · simp [get_license_compliance_report, generate_license_compliance_report,
      List.length_map, ← List.countP_eq_length_filter]
  · intro hpos
    simp only [get_license_compliance_report, generate_license_compliance_report,
      List.length_map, ← List.countP_eq_length_filter]
    apply List.countP_congr
    intro license hmem
    have hm := hpos license hmem
    simp only [decide_eq_true_eq, reportUsagePercentage, if_pos hm]
    exact overused_conditions_agree (countAssignments s license.license_key)
      license.max_usage hm

/-- A store holding one license whose max_usage is zero. -/
def storeZeroCapacity : Store :=
  { vendors := [⟨"V1", "Acme", none⟩],
    licenses := [⟨"LIC-0", "Zero", "V1", 0, 100, .PER_USER, 0, none⟩],
    devices := [],
    assignments := [] }

/-- Counterexample to claim C9 as stated: on a license with max_usage = 0 and
no assignments the alert-service report counts it overused (0 ≥ 0·0.9) while
the report-service report does not (its percentage is defined as 0 < 90). -/
theorem overused_count_counterexample :
    (get_license_compliance_report 0 storeZeroCapacity).overused_licenses = 1 ∧
    (generate_license_compliance_report 0 storeZeroCapacity).summary_overused = 0 := by
  constructor
  · have : (get_license_compliance_report 0 storeZeroCapacity).overused_licenses =
        List.countP (fun license => decide
          ((countAssignments storeZeroCapacity license.license_key : ℚ) ≥
            (license.max_usage : ℚ) * (9/10))) storeZeroCapacity.licenses := rfl
    rw [this]
    norm_num [storeZeroCapacity, countAssignments, List.countP_cons]
  · have : (generate_license_compliance_report 0 storeZeroCapacity).summary_overused =
        ((storeZeroCapacity.licenses.filter fun l =>
          decide (reportUsagePercentage storeZeroCapacity l ≥ 90)).map
            (licenseReportEntryOf 0 storeZeroCapacity)).length := rfl
    rw [this]
    rw [List.length_map]
    norm_num [storeZeroCapacity, reportUsagePercentage, List.filter]

/-- Claim C8 counterexample: create_license performs no validation of
max_usage — an input with max_usage = 0 (fresh key, existing vendor, valid
dates) is accepted and the License is inserted, not rejected. -/
def zeroCapacityInput : LicenseCreateData :=
  { license_key := "LIC-NEW", software_name := "AppZ", vendor_id := "V1",
    valid_from := 0, valid_to := 10, license_type := .PER_DEVICE,
    max_usage := 0, notes := none }

/-- The store zeroCapacityInput is submitted against: one vendor, no licenses. -/
def storeVendorOnly : Store :=
  { vendors := [⟨"V1", "Acme", none⟩], licenses := [], devices := [], assignments := [] }

/-- Counterexample to claim C8 as stated: creation with non-positive max_usage
succeeds and mutates the store instead of failing with InvalidInput. -/
theorem nonpositive_max_usage_counterexample :
    zeroCapacityInput.max_usage ≤ 0 ∧
    (create_license zeroCapacityInput storeVendorOnly).1 =
      .ok (licenseOfData zeroCapacityInput) ∧
    (create_license zeroCapacityInput storeVendorOnly).2.licenses =
      storeVendorOnly.licenses ++ [licenseOfData zeroCapacityInput] := by
  refine ⟨by decide, rfl, rfl⟩

/-- Claim C8 (amended): create_license checks only key uniqueness, vendor
existence and valid_to > valid_from; an input with non-positive max_usage that
passes those checks creates the License record — no InvalidInput rejection of
max_usage exists. -/
theorem create_license_accepts_nonpositive_max_usage (s : Store) (d : LicenseCreateData)
    (hkey : getLicense s d.license_key = none)
    (hvendor : ∃ v, (s.vendors.find? fun v => decide (v.vendor_id = d.vendor_id)) = some v)
    (hdates : d.valid_from < d.valid_to)
    (hmax : d.max_usage ≤ 0) :
    create_license d s =
      (.ok (licenseOfData d), { s with licenses := s.licenses ++ [licenseOfData d] }) := by
  obtain ⟨v, hv⟩ := hvendor
  have hnot : ¬ d.valid_to ≤ d.valid_from := not_le.mpr hdates
  simp [create_license, hkey, hv, hnot]

/-- Claim C10: every device reported by get_devices_at_risk is an ACTIVE
device of the store; devices in MAINTENANCE, OBSOLETE or DECOMMISSIONED
status never appear, whatever licenses they hold. -/
theorem devices_at_risk_active_only (s : Store) (today days_threshold : Int)
    (e : DeviceRiskEntry) (he : e ∈ get_devices_at_risk today days_threshold s) :
    ∃ d, d ∈ s.devices ∧ d.status = DeviceStatus.ACTIVE ∧ e.device_id = d.device_id := by
  rw [get_devices_at_risk, List.mem_mergeSort, List.mem_filterMap] at he
  obtain ⟨d, hd, hsome⟩ := he
  rw [List.mem_filter] at hd
  refine ⟨d, hd.1, by simpa using hd.2, ?_⟩
  rw [deviceRiskEntryOf] at hsome
  by_cases hcond : (0 < (((s.assignments.filter fun a =>
      decide (a.device_id = d.device_id)).filterMap fun a =>
        getLicense s a.license_key).filter fun l =>
          decide (l.valid_to < today)).length ∨
      0 < (((s.assignments.filter fun a =>
      decide (a.device_id = d.device_id)).filterMap fun a =>
        getLicense s a.license_key).filter fun l =>
          decide (¬ l.valid_to < today ∧ l.valid_to ≤ today + days_threshold)).length)
  · rw [if_pos hcond] at hsome
    have := (Option.some.injEq _ _).mp hsome
    rw [← this]
  · rw [if_neg hcond] at hsome
    exact absurd hsome (by simp)

/-- Sample license of capacity 2 for the concrete scenarios. -/
def demoLicense : License := ⟨"LIC-1", "AppA", "V1", 0, 365, .PER_DEVICE, 2, none⟩

/-- Sample license of capacity 5. -/
def demoLicense5 : License := ⟨"LIC-2", "AppB", "V1", 0, 365, .PER_USER, 5, none⟩

/-- Sample devices. -/
def devA : Device := ⟨"DEV-A", "router", "10.0.0.1", "HQ", none, .ACTIVE⟩

def devB : Device := ⟨"DEV-B", "switch", "10.0.0.2", "HQ", none, .ACTIVE⟩

def devC : Device := ⟨"DEV-C", "ap", "10.0.0.3", "HQ", none, .ACTIVE⟩

/-- Two licenses, three devices, nothing assigned yet. -/
def demoStore : Store :=
  ⟨[⟨"V1", "Acme", none⟩], [demoLicense, demoLicense5], [devA, devB, devC], []⟩

def demoAssignment : Assignment := ⟨"A1", "LIC-1", "DEV-A", "U1", 0⟩

/-- demoStore after one successful assignment. -/
def demoStore2 : Store := { demoStore with assignments := [demoAssignment] }

/-- demoStore with LIC-1 at its capacity of 2. -/
def fullStore : Store :=
  { demoStore with assignments :=
      [⟨"A1", "LIC-1", "DEV-A", "U1", 0⟩, ⟨"A2", "LIC-1", "DEV-B", "U1", 0⟩] }

/-- Witness for C1: after reaching demoStore2 by one create_assignment step,
LIC-1 still respects its capacity. -/
theorem capacity_invariant_witness :
    (countAssignments demoStore2 "LIC-1" : Int) ≤ demoLicense.max_usage := by
  have hop : create_assignment "A1" 0 "LIC-1" "DEV-A" "U1" demoStore =
      (.ok demoAssignment, demoStore2) := by rfl
  exact capacity_invariant demoStore demoStore2
    (Reachable.create (Reachable.refl demoStore) hop) "LIC-1" demoLicense rfl (by decide)

/-- Witness for C2: on a concrete store the capacity, missing-license,
duplicate and success branches behave as the theorem states; the capacity
message spells out 2 of 2. -/
theorem assign_preconditions_witness :
    create_assignment "A3" 5 "LIC-1" "DEV-C" "U1" fullStore =
      (.error ⟨400, capacityDetail "LIC-1" demoLicense.max_usage
        (countAssignments fullStore "LIC-1")⟩, fullStore) ∧
    capacityDetail "LIC-1" 2 2 =
      "License LIC-1 has reached maximum usage (2). Currently assigned to 2 devices." ∧
    create_assignment "A3" 5 "LIC-X" "DEV-C" "U1" fullStore =
      (.error ⟨404, "License LIC-X not found"⟩, fullStore) ∧
    create_assignment "A3" 5 "LIC-1" "DEV-A" "U1" fullStore =
      (.error ⟨400, "License LIC-1 already assigned to device DEV-A"⟩, fullStore) ∧
    create_assignment "A3" 5 "LIC-2" "DEV-C" "U1" fullStore =
      (.ok ⟨"A3", "LIC-2", "DEV-C", "U1", 5⟩,
       { fullStore with assignments := fullStore.assignments ++
          [⟨"A3", "LIC-2", "DEV-C", "U1", 5⟩] }) := by
  refine ⟨?_, rfl, ?_, ?_, ?_⟩
  · exact (assign_preconditions fullStore "A3" 5 "LIC-1" "DEV-C" "U1").2.2.2.1
      demoLicense devC rfl rfl rfl (by decide)
  · exact (assign_preconditions fullStore "A3" 5 "LIC-X" "DEV-C" "U1").1 rfl
  · exact (assign_preconditions fullStore "A3" 5 "LIC-1" "DEV-A" "U1").2.2.1
      demoLicense devA ⟨"A1", "LIC-1", "DEV-A", "U1", 0⟩ rfl rfl rfl
  · exact ((assign_preconditions fullStore "A3" 5 "LIC-2" "DEV-C" "U1").2.2.2.2.2
      demoLicense5 devC rfl rfl rfl (by decide)).1

/-- Witness for C3: the uniqueness bound holds in the state reached by one
create_assignment step from the empty-assignment store. -/
theorem uniqueness_invariant_witness :
    pairCount demoStore2 "LIC-1" "DEV-A" ≤ 1 := by
  have hop : create_assignment "A1" 0 "LIC-1" "DEV-A" "U1" demoStore =
      (.ok demoAssignment, demoStore2) := by rfl
  exact uniqueness_invariant demoStore demoStore2
    (Reachable.create (Reachable.refl demoStore) hop)
    (by intro lk did; simp [pairCount, demoStore]) "LIC-1" "DEV-A"

/-- Evaluation helper: 100 percent rounds to itself. -/
theorem round2_hundred : round2 (100 : ℚ) = 100 := by
  have hfl : ⌊(100 : ℚ) * 100⌋ = 10000 := by
    rw [show ((100 : ℚ) * 100) = ((10000 : ℤ) : ℚ) by norm_num, Int.floor_intCast]
  rw [round2, roundHalfEven]
  simp only [hfl]
  norm_num

/-- Witness for C4: at 2 of 2 seats the utilization report says CRITICAL. -/
theorem utilization_report_witness :
    (get_license_utilization "LIC-1" fullStore).toOption.map UtilizationReport.status =
      some "CRITICAL" := by
  obtain ⟨r, heq, hmax, hcur, hav, hpct, hcrit, _, _⟩ :=
    (utilization_report fullStore "LIC-1").2 demoLicense rfl
  have hc : countAssignments fullStore "LIC-1" = 2 := rfl
  rw [hc, if_pos (by decide : demoLicense.max_usage > 0)] at hpct
  have h100 : ((2 : ℕ) : ℚ) / ((demoLicense.max_usage : ℤ) : ℚ) * 100 = 100 := by
    rw [show demoLicense.max_usage = 2 from rfl]
    norm_num
  rw [h100, round2_hundred] at hpct
  have hstat := hcrit (by rw [hpct]; norm_num)
  rw [heq]
  simp only [Except.toOption, Option.map]
  rw [hstat]

/-- Witness for C5: releasing a missing id fails 404 and leaves the store
unchanged; releasing A1 returns its license_key and device_id. -/
theorem release_assignment_witness :
    delete_assignment "A-missing" fullStore =
      (.error ⟨404, "Assignment A-missing not found"⟩, fullStore) ∧
    (delete_assignment "A1" fullStore).1 =
      .ok ⟨"Assignment A1 deleted successfully", "LIC-1", "DEV-A"⟩ := by
  constructor
  · exact (release_assignment fullStore "A-missing").1 rfl
  · obtain ⟨l1, l2, _, _, _, heq⟩ :=
      (release_assignment fullStore "A1").2 ⟨"A1", "LIC-1", "DEV-A", "U1", 0⟩ rfl
    rw [heq]
    rfl

/-- Licenses expiring in 5, 20 and 29 days. -/
def licFive : License := ⟨"LIC-5", "S5", "V1", 0, 5, .PER_USER, 3, none⟩

def licTwenty : License := ⟨"LIC-20", "S20", "V1", 0, 20, .PER_USER, 3, none⟩

def licTwentyNine : License := ⟨"LIC-29", "S29", "V1", 0, 29, .PER_USER, 3, none⟩

/-- Store for the expiring-licenses scenario (spec inputs 20, 5, 29). -/
def expiringStore : Store :=
  ⟨[⟨"V1", "Acme", none⟩], [licTwenty, licFive, licTwentyNine], [], []⟩

/-- Witness for C6: the 5-day license is listed and classified by the
severity ladder (CRITICAL, being ≤ 7 days out). -/
theorem expiring_licenses_spec_witness :
    (expiryAlertOf 0 expiringStore licFive).severity =
      expiry_severity (expiryAlertOf 0 expiringStore licFive).days_until_expiry ∧
    (expiryAlertOf 0 expiringStore licFive).severity = "CRITICAL" := by
  have hmem : expiryAlertOf 0 expiringStore licFive ∈ get_expiring_licenses 0 30 expiringStore :=
    ((expiring_licenses_spec expiringStore 0 30).1 _).mpr
      ⟨licFive, by decide, by decide, by decide, rfl⟩
  exact ⟨(expiring_licenses_spec expiringStore 0 30).2.2.1 _ hmem, rfl⟩

/-- The valid license of storeOneValidOfThree. -/
def goodLicense : License := ⟨"LIC-V", "Good", "V1", 0, 100, .PER_USER, 5, none⟩

/-- Witness for C7: the valid license of the sample store lands in exactly one
bucket of the report. -/
theorem compliance_bucket_partition_witness :
    (licenseReportEntryOf 0 storeOneValidOfThree goodLicense ∈
        (generate_license_compliance_report 0 storeOneValidOfThree).expired_licenses ∧
      licenseReportEntryOf 0 storeOneValidOfThree goodLicense ∉
        (generate_license_compliance_report 0 storeOneValidOfThree).expiring_30_days ∧
      licenseReportEntryOf 0 storeOneValidOfThree goodLicense ∉
        (generate_license_compliance_report 0 storeOneValidOfThree).expiring_60_days ∧
      licenseReportEntryOf 0 storeOneValidOfThree goodLicense ∉
        (generate_license_compliance_report 0 storeOneValidOfThree).valid_licenses) ∨
    (licenseReportEntryOf 0 storeOneValidOfThree goodLicense ∉
        (generate_license_compliance_report 0 storeOneValidOfThree).expired_licenses ∧
      licenseReportEntryOf 0 storeOneValidOfThree goodLicense ∈
        (generate_license_compliance_report 0 storeOneValidOfThree).expiring_30_days ∧
      licenseReportEntryOf 0 storeOneValidOfThree goodLicense ∉
        (generate_license_compliance_report 0 storeOneValidOfThree).expiring_60_days ∧
      licenseReportEntryOf 0 storeOneValidOfThree goodLicense ∉
        (generate_license_compliance_report 0 storeOneValidOfThree).valid_licenses) ∨
    (licenseReportEntryOf 0 storeOneValidOfThree goodLicense ∉
        (generate_license_compliance_report 0 storeOneValidOfThree).expired_licenses ∧
      licenseReportEntryOf 0 storeOneValidOfThree goodLicense ∉
        (generate_license_compliance_report 0 storeOneValidOfThree).expiring_30_days ∧
      licenseReportEntryOf 0 storeOneValidOfThree goodLicense ∈
        (generate_license_compliance_report 0 storeOneValidOfThree).expiring_60_days ∧
      licenseReportEntryOf 0 storeOneValidOfThree goodLicense ∉
        (generate_license_compliance_report 0 storeOneValidOfThree).valid_licenses) ∨
    (licenseReportEntryOf 0 storeOneValidOfThree goodLicense ∉
        (generate_license_compliance_report 0 storeOneValidOfThree).expired_licenses ∧
      licenseReportEntryOf 0 storeOneValidOfThree goodLicense ∉
        (generate_license_compliance_report 0 storeOneValidOfThree).expiring_30_days ∧
      licenseReportEntryOf 0 storeOneValidOfThree goodLicense ∉
        (generate_license_compliance_report 0 storeOneValidOfThree).expiring_60_days ∧
      licenseReportEntryOf 0 storeOneValidOfThree goodLicense ∈
        (generate_license_compliance_report 0 storeOneValidOfThree).valid_licenses) :=
  (compliance_bucket_partition storeOneValidOfThree 0).2.2.1 goodLicense (by decide)

/-- Witness for C9: with all-positive capacities the two reports agree on the
overused count. -/
theorem compliance_reports_agree_witness :
    (get_license_compliance_report 0 fullStore).overused_licenses =
      (generate_license_compliance_report 0 fullStore).summary_overused :=
  (compliance_reports_agree fullStore 0).2.2.2.2.2.2 (by decide)

/-- Witness for C8: the concrete zero-capacity input is accepted. -/
theorem create_license_accepts_nonpositive_witness :
    create_license zeroCapacityInput storeVendorOnly =
      (.ok (licenseOfData zeroCapacityInput),
       { storeVendorOnly with licenses :=
          storeVendorOnly.licenses ++ [licenseOfData zeroCapacityInput] }) :=
  create_license_accepts_nonpositive_max_usage storeVendorOnly zeroCapacityInput
    rfl ⟨⟨"V1", "Acme", none⟩, rfl⟩ (by decide) (by decide)

/-- An active and a maintenance device, both holding the same expired license. -/
def devRisk : Device := ⟨"DEV-RISK", "router", "10.0.1.1", "DC", none, .ACTIVE⟩

def devMaint : Device := ⟨"DEV-MNT", "router", "10.0.1.2", "DC", none, .MAINTENANCE⟩

def expiredLic : License := ⟨"LIC-X", "OldApp", "V1", -400, -5, .PER_DEVICE, 3, none⟩

def riskStore : Store :=
  ⟨[⟨"V1", "Acme", none⟩], [expiredLic], [devRisk, devMaint],
   [⟨"AR1", "LIC-X", "DEV-RISK", "U1", 0⟩, ⟨"AR2", "LIC-X", "DEV-MNT", "U1", 0⟩]⟩

/-- The at-risk entry produced for devRisk. -/
def riskEntryW : DeviceRiskEntry :=
  ⟨"DEV-RISK", "router", "DC", "10.0.1.1", 1, 0, ["OldApp"], [], "CRITICAL",
   "1 expired license"⟩

/-- Witness for C10: the listed at-risk entry corresponds to an ACTIVE device
of the store (and not to the maintenance one holding the same expired license). -/
theorem devices_at_risk_active_only_witness :
    ∃ d, d ∈ riskStore.devices ∧ d.status = DeviceStatus.ACTIVE ∧
      riskEntryW.device_id = d.device_id := by
  have he : riskEntryW ∈ get_devices_at_risk 0 15 riskStore := by
    simp only [get_devices_at_risk, List.mem_mergeSort]
    decide
  exact devices_at_risk_active_only riskStore 0 15 riskEntryW he

end LicenseTracker
